import Mathlib

/-!
Shallow embedding of the LLM-driven training-plan generation pipeline
(Mastra workflows: phase planner, week enhancer, daily workout expander,
fan-out stage, persistence side-channel) together with the zod schemas
of `type.ts`.  Dates are modelled as epoch milliseconds (`Int`), numbers
as rationals (`Rat`), fallible steps as `Except String`.
-/

namespace Codetrekking

/-! ## Data model (from `type.ts` zod schemas) -/

/-- Race priority enum: A=peak race, B=tune-up, C=training race. -/
inductive Priority where
  | A
  | B
  | C
deriving DecidableEq, Repr

/-- `RaceEventSchema`: race date (epoch ms), priority, distance (km), optional name. -/
structure RaceEvent where
  date : Int
  priority : Priority
  distance : Rat
  name : Option String
deriving DecidableEq, Repr

/-- Experience level enum from the phase-planner input schema. -/
inductive ExperienceLevel where
  | beginner
  | intermediate
  | advanced
deriving DecidableEq, Repr

/-- `CriticalWorkoutSchema`: id plus free-text description. -/
structure CriticalWorkout where
  id : String
  description : String
deriving DecidableEq, Repr

/-- `TrainingWeekSchema`: week identity, parent phase, date span, description,
optional mileage, critical workouts. -/
structure TrainingWeek where
  week_id : String
  phase_id : String
  start_date : Int
  end_date : Int
  description : String
  weekly_mileage : Option Rat
  critical_workouts : List CriticalWorkout
deriving DecidableEq, Repr

/-- `TrainingPhaseSchema`: phase identity, weeks, and focus labels
(the zod schema declares `workout_focus` with `.min(1)`). -/
structure TrainingPhase where
  phase_id : String
  name : String
  tag : String
  description : String
  weeks : List TrainingWeek
  workout_focus : List String
deriving DecidableEq, Repr

/-- A numeric min/max range as used by `distance_range`, `time_range`,
`target_range`. -/
structure Range where
  min : Rat
  max : Rat
deriving DecidableEq, Repr

/-- Intensity metric enum of `WorkoutSegmentSchema`. -/
inductive IntensityMetric where
  | pace
  | power
  | heart_rate
deriving DecidableEq, Repr

/-- Payload of a `segment` workout item (`WorkoutSegmentSchema`). -/
structure SegmentData where
  distance_range : Option Range
  duration : Rat
  intensity_metric : IntensityMetric
  target_range : Range
  description : String
  tags : Option (List String)
  pre : Rat
deriving DecidableEq, Repr

/-- `WorkoutItemSchema`: tagged union of segment, loop_start and loop_end. -/
inductive WorkoutItem where
  | segment (s : SegmentData)
  | loop_start (id : String) (rep : Nat)
  | loop_end (id : String)
deriving DecidableEq, Repr

/-- Per-item zod validation of `WorkoutItemSchema`: segment field bounds
(`duration ≥ 0.1`, nonnegative distance range, `pre` in 0..10) and
`repeat ≥ 1` on `loop_start`; `loop_end` carries no numeric constraint. -/
def validWorkoutItem : WorkoutItem → Bool
  | .segment s =>
      (match s.distance_range with
       | none => true
       | some r => decide (0 ≤ r.min) && decide (0 ≤ r.max)) &&
      decide ((1 : Rat) / 10 ≤ s.duration) &&
      decide (0 ≤ s.pre) && decide (s.pre ≤ 10)
  | .loop_start _ rep => decide (1 ≤ rep)
  | .loop_end _ => true

/-- Validation of a `detail` array: zod checks each item independently. -/
def validDetail (l : List WorkoutItem) : Bool := l.all validWorkoutItem

/-- Stack-based bracket scan over loop markers: push each `loop_start` id,
pop on a matching `loop_end`; `none` signals underflow or id mismatch. -/
def scanLoops : List WorkoutItem → List String → Option (List String)
  | [], stack => some stack
  | .segment _ :: rest, stack => scanLoops rest stack
  | .loop_start id _ :: rest, stack => scanLoops rest (id :: stack)
  | .loop_end id :: rest, stack =>
      match stack with
      | [] => none
      | top :: s => if top = id then scanLoops rest s else none

/-- A detail list is well-bracketed when the scan neither underflows nor
ends with open loops. -/
def wellBracketed (l : List WorkoutItem) : Bool := scanLoops l [] = some []

/-- The LLM-side workout plan shape (`WorkoutPlanLLMSchema`): no ids/date. -/
structure WorkoutPlanLLM where
  title : String
  description : String
  detail : List WorkoutItem
  estimated_tss : Option Rat
  total_time : Option Rat
  total_distance : Option Rat
deriving DecidableEq, Repr

/-- The output plan of the expander: generation result plus identity fields and
the `stored` persistence flag. -/
structure WorkoutPlanOutput where
  title : String
  description : String
  detail : List WorkoutItem
  estimated_tss : Option Rat
  total_time : Option Rat
  total_distance : Option Rat
  workout_id : String
  week_id : String
  date : Int
  phase_id : String
  stored : Bool
deriving DecidableEq, Repr

/-- `DailyWorkoutRequestSchema` (weekly-plan variant): the high-level single-day
workout request. -/
structure DailyWorkoutRequest where
  id : String
  date : Int
  workout_type : String
  workout_target : String
  distance_range : Option Range
  time_range : Option Range
  zone_distribution : Option String
  target_zone : Option String
deriving DecidableEq, Repr

/-- A `DailyWorkoutRequest` extended with parent phase and week ids, as
returned by `enhanceWeeklyWorkouts`. -/
structure TaggedDailyWorkoutRequest extends DailyWorkoutRequest where
  phase_id : String
  week_id : String
deriving DecidableEq, Repr

/-! ## Phase Planner Step (`generateTrainingPhases` in the phase workflow) -/

/-- Input of the phase-planner step. -/
structure PhasePlanInput where
  race_schedule : List RaceEvent
  target_distance : Rat
  current_weekly_mileage : Rat
  experience_level : ExperienceLevel
  available_days_per_week : Nat
deriving Repr

/-- One week in milliseconds: `7 * 24 * 60 * 60 * 1000`. -/
def weekMs : Int := 7 * 24 * 60 * 60 * 1000

/-- Ceiling division of integers (for positive divisor), modelling
`Math.ceil(delta / weekMs)`. -/
def ceilDivInt (a b : Int) : Int := -((-a).fdiv b)

/-- `race_schedule.filter` keeping only priority-A races. -/
def aPriorityRaces (schedule : List RaceEvent) : List RaceEvent :=
  schedule.filter (fun r => r.priority = Priority.A)

/-- `aPriorityRaces[0]`: the race the step uses as primary goal. -/
def primaryRace (schedule : List RaceEvent) : Option RaceEvent :=
  (aPriorityRaces schedule).head?

/-- The data the step hands to the generation backend: primary race date and
name, computed weeks-to-race, and the prompt embedding them. -/
structure PhaseGenCall where
  raceDateMs : Int
  raceName : String
  weeksToRace : Int
  prompt : String
deriving DecidableEq, Repr

/-- The prompt skeleton of `generateTrainingPhases` (fields interpolated as
in the template literal; date rendering abstracted to `toString` of ms). -/
def phasePrompt (raceName : String) (raceDateMs : Int) (targetDistance : Rat)
    (weeksToRace : Int) : String :=
  "Create a complete periodized training plan with the following parameters:" ++
  " Target Race: " ++ raceName ++ " on " ++ toString raceDateMs ++
  " Distance: " ++ toString targetDistance ++ " km" ++
  " Weeks Available: " ++ toString weeksToRace

/-- Pre-generation stage of `generateTrainingPhases`: filter A-priority races,
fail when none, otherwise take the FIRST one, compute weeks-to-race by
ceiling division of the ms delta by one week, and build the generation call. -/
def generatePhaseCall (today : Int) (input : PhasePlanInput) :
    Except String PhaseGenCall :=
  match aPriorityRaces input.race_schedule with
  | [] => .error "At least one A-priority race is required"
  | r :: _ =>
      let wtr := ceilDivInt (r.date - today) weekMs
      .ok { raceDateMs := r.date
            raceName := r.name.getD "Goal Race"
            weeksToRace := wtr
            prompt := phasePrompt (r.name.getD "Goal Race") r.date
              input.target_distance wtr }

/-! ## Phase result validation (`generateTrainingPhases`, weekly variant) -/

/-- Error message when the generated phase list is missing focus labels;
`ids` is the comma-joined list of offending phase ids. -/
def focusErrorMsg (ids : String) : String :=
  "Invalid phase structure: The following phases are missing workout_focus field: " ++
  ids ++ ". Every phase MUST have workout_focus array with at least 1 element."

/-- `object.phases.filter(p => !p.workout_focus || p.workout_focus.length === 0)`. -/
def phasesWithoutFocus (phases : List TrainingPhase) : List TrainingPhase :=
  phases.filter (fun p => p.workout_focus.isEmpty)

/-- Post-generation validation of `generateTrainingPhases`: a null structured
output fails, an empty phase list fails, and any phase with an empty
`workout_focus` fails with a message joining the offending phase ids;
otherwise the phases are returned unchanged. -/
def validateGeneratedPhases (genResult : Option (List TrainingPhase)) :
    Except String (List TrainingPhase) :=
  match genResult with
  | none => .error "Failed to generate training phases: Invalid structured output from phasePlanner"
  | some phases =>
      if phases.isEmpty then
        .error "Failed to generate training phases: LLM returned empty result"
      else
        let bad := phasesWithoutFocus phases
        if bad.isEmpty then .ok phases
        else .error (focusErrorMsg (String.intercalate ", " (bad.map (fun p => p.phase_id))))

/-! ## Week Enhancer Step (`enhanceWeeklyWorkouts`) -/

/-- Result handling of `enhanceWeeklyWorkouts`: a null/non-array structured
output is a hard failure; otherwise every returned item is tagged with the
parent phase id (falling back to the one on the week) and the week id and the
list is returned as-is.  `available_days_per_week` is used only in the
prompt, never to check the result. -/
def enhanceWeeklyWorkouts (training_week : TrainingWeek)
    (available_days_per_week : Nat) (phase_id : Option String)
    (genResult : Option (List DailyWorkoutRequest)) :
    Except String (List TaggedDailyWorkoutRequest) :=
  let _ := available_days_per_week
  match genResult with
  | none => .error "Failed to generate daily workouts: Invalid structured output from workoutEnhancer"
  | some l =>
      .ok (l.map (fun w =>
        { toDailyWorkoutRequest := w
          phase_id := phase_id.getD training_week.phase_id
          week_id := training_week.week_id }))

/-! ## Daily Workout Expander (`processDailyWorkout`): retry loop -/

/-- Outcome of one `agent.generate` attempt: structured output, a null
`result.object`, or a thrown error. -/
inductive AttemptOutcome (α : Type) where
  | ok (plan : α)
  | nullResult (respText : String)
  | err (msg : String)
deriving Repr

/-- Whether an attempt produced structured output. -/
def AttemptOutcome.isOk {α : Type} : AttemptOutcome α → Bool
  | .ok _ => true
  | _ => false

/-- The `lastError` recorded after a failed attempt. -/
def attemptErrorMsg {α : Type} (attempt : Nat) : AttemptOutcome α → Option String
  | .ok _ => none
  | .nullResult _ =>
      some ("No structured output from workoutExpert (attempt " ++ toString attempt ++ ")")
  | .err m => some m

/-- The final error thrown when all retries are exhausted. -/
def finalFailMsg (id : String) (lastError : Option String) : String :=
  "Failed to generate detailed workout plan for " ++ id ++ " after 3 retries: " ++
  lastError.getD "Invalid structured output"

/-- Trace of the retry loop: number of generation calls made, the waits (ms)
inserted between consecutive attempts, and the final outcome. -/
structure RetryTrace (α : Type) where
  calls : Nat
  waits : List Nat
  result : Except String α
deriving Repr

/-- The retry loop of `processDailyWorkout`, indexed by remaining attempts
(starting from `maxRetries = 3`) and the 1-based attempt counter: a success
breaks out immediately; a failure records `lastError`, and unless this was
the last attempt waits `2^(attempt-1) * 1000` ms and retries. -/
def retryFromAux {α : Type} (outcomes : Nat → AttemptOutcome α) (id : String) :
    Nat → Nat → RetryTrace α
  | 0, _ => { calls := 0, waits := [], result := .error (finalFailMsg id none) }
  | remaining + 1, attempt =>
      match outcomes attempt with
      | .ok p => { calls := 1, waits := [], result := .ok p }
      | o =>
          let lastError := attemptErrorMsg attempt o
          if remaining = 0 then
            { calls := 1, waits := [], result := .error (finalFailMsg id lastError) }
          else
            let waitMs := 2 ^ (attempt - 1) * 1000
            let t := retryFromAux outcomes id remaining (attempt + 1)
            { calls := t.calls + 1, waits := waitMs :: t.waits, result := t.result }

/-- The generation part of `processDailyWorkout`: up to 3 attempts. -/
def processWorkoutGeneration {α : Type} (outcomes : Nat → AttemptOutcome α)
    (id : String) : RetryTrace α :=
  retryFromAux outcomes id 3 1

/-! ## Daily Workout Expander: plan assembly and persistence -/

/-- `workoutPlanOutput = {...finalResult, workout_id: id, week_id, date,
phase_id, stored: false}` — the generation result is spread unchanged. -/
def buildWorkoutPlanOutput (finalResult : WorkoutPlanLLM) (id week_id : String)
    (date : Int) (phase_id : String) : WorkoutPlanOutput :=
  { title := finalResult.title
    description := finalResult.description
    detail := finalResult.detail
    estimated_tss := finalResult.estimated_tss
    total_time := finalResult.total_time
    total_distance := finalResult.total_distance
    workout_id := id
    week_id := week_id
    date := date
    phase_id := phase_id
    stored := false }

/-- JS `getDay()` value (0=Sunday..6=Saturday) translated at the persistence
boundary: `dayOfWeek === 0 ? 6 : dayOfWeek - 1`. -/
def adjustedDayOfWeek (dayOfWeek : Nat) : Nat :=
  if dayOfWeek = 0 then 6 else dayOfWeek - 1

/-- Body of `POST /training-plans/workouts` as assembled in
`processDailyWorkout`. -/
structure WorkoutApiRequest where
  phase_id : String
  week_id : String
  name : String
  day_of_week : Nat
  workout_type : String
  segments : List WorkoutItem
  meta_estimated_tss : Option Rat
  meta_total_time : Option Rat
  meta_total_distance : Option Rat
  meta_description : String
deriving Repr

/-- Assembly of the persistence request for one workout, with the
day-of-week translation applied to the JS `getDay()` value. -/
def mkWorkoutApiRequest (finalResult : WorkoutPlanLLM)
    (phase_id week_id workout_type : String) (jsDay : Nat) : WorkoutApiRequest :=
  { phase_id := phase_id
    week_id := week_id
    name := finalResult.title
    day_of_week := adjustedDayOfWeek jsDay
    workout_type := workout_type
    segments := finalResult.detail
    meta_estimated_tss := finalResult.estimated_tss
    meta_total_time := finalResult.total_time
    meta_total_distance := finalResult.total_distance
    meta_description := finalResult.description }

/-- An HTTP response at the persistence boundary. -/
structure ApiResponse where
  ok : Bool
  status : Nat
  body : String
deriving DecidableEq, Repr

/-- Storage branch of `processDailyWorkout`: with no access token storage is
skipped; otherwise `stored` is set to `true` exactly when the response is ok.
A non-ok response is only logged — the function is total, the step never
fails here. -/
def storeWorkoutStep (accessToken : Option String) (resp : ApiResponse)
    (plan : WorkoutPlanOutput) : WorkoutPlanOutput :=
  match accessToken with
  | none => plan
  | some _ => if resp.ok then { plan with stored := true } else plan

/-! ## Persistence of phases (`saveToDatabase`) -/

/-- The per-phase loop of `saveToDatabase`: a non-ok response for any phase
throws, aborting the whole step. -/
def savePhaseLoop (responses : TrainingPhase → ApiResponse) :
    List TrainingPhase → Except String Unit
  | [] => .ok ()
  | p :: rest =>
      let resp := responses p
      if resp.ok then savePhaseLoop responses rest
      else .error ("API error saving phase " ++ p.phase_id ++ ": " ++
        toString resp.status ++ " - " ++ resp.body)

/-- `saveToDatabase`: a missing access token skips persistence and returns
the phases unsaved; an empty phase list is an error; otherwise every phase
is saved in turn and any failure propagates as fatal. -/
def saveToDatabase (accessToken : Option String)
    (responses : TrainingPhase → ApiResponse) (phases : List TrainingPhase) :
    Except String (List TrainingPhase) :=
  match accessToken with
  | none => .ok phases
  | some _ =>
      if phases.isEmpty then .error "No phases to save"
      else
        match savePhaseLoop responses phases with
        | .ok _ => .ok phases
        | .error e => .error e

/-! ## Fan-out stage input validation -/

/-- The fan-out workflow input schema bound on `workouts`:
`z.array(DailyWorkoutRequestSchema).min(1).max(7)`. -/
def validWorkoutBatch (l : List DailyWorkoutRequest) : Bool :=
  1 ≤ l.length && l.length ≤ 7

/-- Number of `processDailyWorkout` dispatches a batch causes: input
validation happens before the workflow body, so an invalid batch causes
none. -/
def fanoutDispatches (l : List DailyWorkoutRequest) : Nat :=
  if validWorkoutBatch l then l.length else 0

/-! ## Concrete fixtures for witnesses and counterexamples -/

/-- A minimal daily workout request used to build concrete batches. -/
def sampleRequest (n : Nat) : DailyWorkoutRequest :=
  { id := "day-" ++ toString n
    date := n
    workout_type := "easy run"
    workout_target := "aerobic maintenance"
    distance_range := none
    time_range := none
    zone_distribution := none
    target_zone := none }

/-- A concrete batch of `k` daily workout requests. -/
def sampleBatch (k : Nat) : List DailyWorkoutRequest :=
  (List.range k).map sampleRequest

/-- A minimal LLM-generated workout plan. -/
def samplePlanLLM : WorkoutPlanLLM :=
  { title := "Easy Run"
    description := "40 minutes easy"
    detail := []
    estimated_tss := some 30
    total_time := some 40
    total_distance := some 8 }

/-- A-priority race dated later (day 100 in ms). -/
def raceLate : RaceEvent :=
  { date := 8640000000, priority := .A, distance := 42, name := some "late marathon" }

/-- A-priority race dated earlier (day 50 in ms). -/
def raceEarly : RaceEvent :=
  { date := 4320000000, priority := .A, distance := 42, name := some "early marathon" }

/-- A race schedule listing the later-dated A race first. -/
def outOfOrderSchedule : List RaceEvent := [raceLate, raceEarly]

/-- Planner input whose race schedule lists the later A race first. -/
def phaseInputOutOfOrder : PhasePlanInput :=
  { race_schedule := outOfOrderSchedule
    target_distance := 42
    current_weekly_mileage := 40
    experience_level := .intermediate
    available_days_per_week := 5 }

/-- Planner input whose only A-priority race is dated in the past
(date 0 ms, i.e. before any positive `today`). -/
def pastRaceInput : PhasePlanInput :=
  { race_schedule := [{ date := 0, priority := .A, distance := 10, name := none }]
    target_distance := 10
    current_weekly_mileage := 30
    experience_level := .beginner
    available_days_per_week := 3 }

/-- A generated phase with an empty focus-label list. -/
def badPhase : TrainingPhase :=
  { phase_id := "bad-phase"
    name := "Bad Phase"
    tag := "bad"
    description := "missing focus"
    weeks := []
    workout_focus := [] }

/-- A generated phase with a nonempty focus-label list. -/
def goodPhase : TrainingPhase :=
  { phase_id := "base-phase"
    name := "Base Building"
    tag := "base"
    description := "aerobic foundation"
    weeks := []
    workout_focus := ["aerobic base"] }

/-- A concrete training week spanning day 0 to day 6 (in ms). -/
def sampleWeek : TrainingWeek :=
  { week_id := "week-1"
    phase_id := "base-phase"
    start_date := 0
    end_date := 518400000
    description := "easy aerobic week"
    weekly_mileage := some 40
    critical_workouts := [{ id := "cw-1", description := "tempo run" }] }

/-- A daily workout request dated far outside `sampleWeek`. -/
def outsideRequest : DailyWorkoutRequest :=
  { id := "w-out"
    date := 1000000000000
    workout_type := "tempo run"
    workout_target := "threshold"
    distance_range := none
    time_range := none
    zone_distribution := none
    target_zone := none }

/-- `outsideRequest` after tagging by the week enhancer. -/
def taggedOutside : TaggedDailyWorkoutRequest :=
  { toDailyWorkoutRequest := outsideRequest
    phase_id := "base-phase"
    week_id := "week-1" }

/-- A persistence response with a non-2xx status. -/
def badResponse : ApiResponse := { ok := false, status := 500, body := "boom" }

/-- A persistence stub answering every phase save with `badResponse`. -/
def failingResponses : TrainingPhase → ApiResponse := fun _ => badResponse

/-- A generation-outcome script in which every attempt throws. -/
def failAllOutcomes : Nat → AttemptOutcome String :=
  fun n => .err ("backend down at attempt " ++ toString n)

/-- A detail list consisting of one unmatched `loop_end`. -/
def illBracketedDetail : List WorkoutItem := [WorkoutItem.loop_end "loop-1"]

/-- A schema-shaped LLM workout plan whose detail is ill-bracketed. -/
def illBracketedPlanLLM : WorkoutPlanLLM :=
  { title := "Intervals"
    description := "broken loop markers"
    detail := illBracketedDetail
    estimated_tss := none
    total_time := none
    total_distance := none }

/-- Whether an `Except` result is a success. -/
def exceptIsOk {ε α : Type} : Except ε α → Bool
  | .ok _ => true
  | .error _ => false

/-- The single past-dated A-priority race of `pastRaceInput`. -/
def pastRace : RaceEvent := { date := 0, priority := .A, distance := 10, name := none }

/-- The generation call produced for `pastRaceInput` when today is one week
after the race: weeks-to-race is −1. -/
def pastRaceCall : PhaseGenCall :=
  { raceDateMs := 0
    raceName := "Goal Race"
    weeksToRace := -1
    prompt := phasePrompt "Goal Race" 0 10 (-1) }

/-- The generation call produced for `phaseInputOutOfOrder` at today = 0:
built from `raceLate`, the first A-priority entry. -/
def lateRaceCall : PhaseGenCall :=
  { raceDateMs := 8640000000
    raceName := "late marathon"
    weeksToRace := 15
    prompt := phasePrompt "late marathon" 8640000000 42 15 }

/-! ## Theorems -/

/-- Claim C7: the input validation of the fan-out stage accepts only batches of
1–7 daily workout requests — a batch of 8 items is rejected before any
expander dispatch occurs, and a batch of 7 items is accepted (and dispatches
all 7). -/
theorem fanout_batch_bounds (l : List DailyWorkoutRequest) :
    (l.length = 8 → validWorkoutBatch l = false ∧ fanoutDispatches l = 0) ∧
    (l.length = 7 → validWorkoutBatch l = true ∧ fanoutDispatches l = 7) := by
  constructor <;> intro h <;>
    simp [validWorkoutBatch, fanoutDispatches, h]

/-- Witness for C7 at concrete batches of 8 and 7 requests. -/
theorem fanout_batch_bounds_witness :
    (validWorkoutBatch (sampleBatch 8) = false ∧ fanoutDispatches (sampleBatch 8) = 0) ∧
    (validWorkoutBatch (sampleBatch 7) = true ∧ fanoutDispatches (sampleBatch 7) = 7) := by
  refine ⟨(fanout_batch_bounds (sampleBatch 8)).1 ?_, (fanout_batch_bounds (sampleBatch 7)).2 ?_⟩ <;>
    simp [sampleBatch]

/-- Claim C9: the `day_of_week` sent to the persistence boundary is the JS
`getDay()` value translated from the Sunday=0 convention to the Monday=0
convention: Sunday (0) maps to 6, every other day `d` maps to `d - 1`, which
is exactly the rotation `(d + 6) % 7`. -/
theorem day_of_week_translation (fr : WorkoutPlanLLM) (ph wk wt : String)
    (jsDay : Nat) (hd : jsDay < 7) :
    (mkWorkoutApiRequest fr ph wk wt jsDay).day_of_week = (jsDay + 6) % 7 ∧
    (jsDay = 0 → (mkWorkoutApiRequest fr ph wk wt jsDay).day_of_week = 6) ∧
    (1 ≤ jsDay → (mkWorkoutApiRequest fr ph wk wt jsDay).day_of_week = jsDay - 1) := by
  simp only [mkWorkoutApiRequest, adjustedDayOfWeek]
  refine ⟨?_, ?_, ?_⟩
  · split <;> omega
  · intro h
    simp [h]
  · intro h
    rw [if_neg (by omega)]

/-- Witness for C9 at Sunday (`getDay() = 0`). -/
theorem day_of_week_translation_witness :
    (mkWorkoutApiRequest samplePlanLLM "base-phase" "week-1" "easy run" 0).day_of_week = 6 := by
  exact (day_of_week_translation samplePlanLLM "base-phase" "week-1" "easy run" 0
    (by decide)).2.1 rfl

/-- Claim C2 counterexample: a schema-valid workout plan (every item passes
`WorkoutItemSchema`) whose detail list is a single unmatched `loop_end` is
passed through by the Daily Workout Expander unchanged, and that detail list
is not well-bracketed — the stack scan underflows. -/
theorem detail_not_wellBracketed_counterexample :
    validDetail illBracketedDetail = true ∧
    (buildWorkoutPlanOutput illBracketedPlanLLM "w1" "week-1" 0 "base-phase").detail =
      illBracketedDetail ∧
    wellBracketed (buildWorkoutPlanOutput illBracketedPlanLLM "w1" "week-1" 0
      "base-phase").detail = false := by
  refine ⟨rfl, rfl, ?_⟩
  decide

/-- Claim C2 amended: the expander performs no bracket validation — the
detail of the returned plan equals the detail of the generation result unchanged (and
the persistence branch never alters it), so well-bracketedness holds only
when the generation client happens to produce it. -/
theorem detail_passed_through (fr : WorkoutPlanLLM) (id wk : String) (dt : Int)
    (ph : String) (tok : Option String) (resp : ApiResponse) :
    (buildWorkoutPlanOutput fr id wk dt ph).detail = fr.detail ∧
    (storeWorkoutStep tok resp (buildWorkoutPlanOutput fr id wk dt ph)).detail =
      fr.detail := by
  constructor
  · rfl
  · cases tok
    · rfl
    · simp only [storeWorkoutStep]
      split
      · rfl
      · rfl

/-- Claim C4 counterexample: an empty-array generation result is NOT
rejected by the Week Enhancer — the step succeeds and returns an empty day
list, contradicting "an empty generation result never produces a successful
(empty) output".  The code only checks `!finalResult ||
!Array.isArray(finalResult)`, which an empty array passes. -/
theorem empty_enhancer_result_accepted_counterexample :
    enhanceWeeklyWorkouts sampleWeek 5 (some "base-phase") (some []) =
      Except.ok [] := rfl

/-- Claim C4 amended: the Week Enhancer fails exactly when the structured
generation result is null/non-array; an array result — including the empty
array — always succeeds, the empty array yielding an empty output list. -/
theorem enhancer_fails_iff_no_array (wk : TrainingWeek) (k : Nat)
    (pid : Option String) (gr : Option (List DailyWorkoutRequest)) :
    ((∃ e, enhanceWeeklyWorkouts wk k pid gr = Except.error e) ↔ gr = none) ∧
    enhanceWeeklyWorkouts wk k pid (some []) = Except.ok [] := by
  constructor
  · cases gr <;> simp [enhanceWeeklyWorkouts]
  · rfl

/-- Claim C5 counterexample: with `available_days_per_week = 3` and a
generation result of a single request dated far outside the span of the week,
the Week Enhancer succeeds with 1 item whose date exceeds `end_date` —
neither the count `k` nor the date range is enforced. -/
theorem enhancer_output_unchecked_counterexample :
    enhanceWeeklyWorkouts sampleWeek 3 none (some [outsideRequest]) =
      Except.ok [taggedOutside] ∧
    [taggedOutside].length ≠ 3 ∧
    ¬ (sampleWeek.start_date ≤ taggedOutside.date ∧
       taggedOutside.date ≤ sampleWeek.end_date) := by
  refine ⟨rfl, by decide, ?_⟩
  decide

/-- Claim C5 amended: the successful Week Enhancer output has exactly the
length of the generation result and preserves the date and id of each item (tagging
only adds phase and week ids); the count `available_days_per_week` and the
week span are requested in the prompt but never enforced on the result. -/
theorem enhancer_output_shape (wk : TrainingWeek) (k : Nat)
    (pid : Option String) (l : List DailyWorkoutRequest)
    (out : List TaggedDailyWorkoutRequest)
    (h : enhanceWeeklyWorkouts wk k pid (some l) = Except.ok out) :
    out.length = l.length ∧
    out.map (fun t => t.date) = l.map (fun w => w.date) ∧
    out.map (fun t => t.id) = l.map (fun w => w.id) ∧
    ∀ t ∈ out, t.week_id = wk.week_id := by
  have hout : out = l.map (fun w =>
      { toDailyWorkoutRequest := w
        phase_id := pid.getD wk.phase_id
        week_id := wk.week_id }) := by
    simpa [enhanceWeeklyWorkouts] using h.symm
  subst hout
  refine ⟨by simp, ?_, ?_, ?_⟩
  · simp
  · simp
  · intro t ht
    simp only [List.mem_map] at ht
    obtain ⟨w, _, hw⟩ := ht
    rw [← hw]

/-- Witness for the amended C5 at a concrete week and one-element result. -/
theorem enhancer_output_shape_witness :
    ([taggedOutside].length = [outsideRequest].length ∧
     [taggedOutside].map (fun t => t.date) = [outsideRequest].map (fun w => w.date) ∧
     [taggedOutside].map (fun t => t.id) = [outsideRequest].map (fun w => w.id) ∧
     ∀ t ∈ [taggedOutside], t.week_id = sampleWeek.week_id) := by
  exact enhancer_output_shape sampleWeek 3 none [outsideRequest] [taggedOutside] rfl

/-- Claim C1 counterexample: with a schedule listing a later-dated A race
before an earlier-dated one, the step picks the later-dated race — the
first A-priority entry in input order, not the earliest-dated — and its
date is what the generation call carries. -/
theorem primary_race_not_earliest_counterexample :
    primaryRace outOfOrderSchedule = some raceLate ∧
    raceEarly ∈ aPriorityRaces outOfOrderSchedule ∧
    raceEarly.date < raceLate.date ∧
    generatePhaseCall 0 phaseInputOutOfOrder = Except.ok lateRaceCall ∧
    lateRaceCall.raceDateMs ≠ raceEarly.date := by
  refine ⟨rfl, ?_, by decide, rfl, by decide⟩
  decide

/-- Claim C1 amended: the Phase Planner selects the FIRST A-priority race in
input-list order (not the earliest-dated one) as the primary goal; its date
and name are what the generation call is built from. -/
theorem first_A_priority_selected (today : Int) (input : PhasePlanInput)
    (pre post : List RaceEvent) (r : RaceEvent)
    (hsched : input.race_schedule = pre ++ r :: post)
    (hr : r.priority = Priority.A)
    (hpre : ∀ q ∈ pre, q.priority ≠ Priority.A) :
    primaryRace input.race_schedule = some r ∧
    ∀ call, generatePhaseCall today input = Except.ok call →
      call.raceDateMs = r.date ∧ call.raceName = r.name.getD "Goal Race" := by
  have hnilpre : pre.filter (fun q => decide (q.priority = Priority.A)) = [] := by
    rw [List.filter_eq_nil_iff]
    intro q hq
    simp [hpre q hq]
  have hfilter : aPriorityRaces input.race_schedule =
      r :: post.filter (fun q => decide (q.priority = Priority.A)) := by
    rw [aPriorityRaces, hsched, List.filter_append, hnilpre,
      List.filter_cons_of_pos (by simp [hr])]
    rfl
  constructor
  · rw [primaryRace, hfilter]
    rfl
  · intro call hc
    rw [generatePhaseCall, hfilter] at hc
    simp only [Except.ok.injEq] at hc
    rw [← hc]
    exact ⟨rfl, rfl⟩

/-- Witness for the amended C1: in `outOfOrderSchedule` the first A-priority
race is `raceLate` (empty prefix), so it is selected. -/
theorem first_A_priority_selected_witness :
    primaryRace phaseInputOutOfOrder.race_schedule = some raceLate ∧
    lateRaceCall.raceDateMs = raceLate.date ∧
    lateRaceCall.raceName = raceLate.name.getD "Goal Race" := by
  have h := first_A_priority_selected 0 phaseInputOutOfOrder [] [raceEarly] raceLate
    rfl rfl (by intro q hq; cases hq)
  have h2 := h.2 lateRaceCall rfl
  exact ⟨h.1, h2.1, h2.2⟩

/-- Claim C6: post-generation validation of the Phase Planner — a successful
result returns the phases unchanged with every phase carrying at least one
focus label, and if any generated phase has an empty focus-label list the
step fails with the validation error that joins the offending phase ids. -/
theorem phase_focus_validation (ps : List TrainingPhase) :
    (∀ out, validateGeneratedPhases (some ps) = Except.ok out →
        out = ps ∧ ∀ p ∈ out, p.workout_focus ≠ []) ∧
    ((∃ p ∈ ps, p.workout_focus = []) →
        validateGeneratedPhases (some ps) = Except.error (focusErrorMsg
          (String.intercalate ", " ((phasesWithoutFocus ps).map
            (fun p => p.phase_id))))) := by
  constructor
  · intro out h
    simp only [validateGeneratedPhases] at h
    by_cases he : ps.isEmpty
    · simp [he] at h
    · rw [if_neg he] at h
      by_cases hb : (phasesWithoutFocus ps).isEmpty
      · rw [if_pos hb] at h
        simp only [Except.ok.injEq] at h
        subst h
        refine ⟨rfl, ?_⟩
        intro p hp hfoc
        have hnil : phasesWithoutFocus ps = [] := List.isEmpty_iff.mp hb
        have := List.filter_eq_nil_iff.mp hnil p hp
        simp [hfoc] at this
      · rw [if_neg hb] at h
        cases h
  · rintro ⟨p, hp, hfoc⟩
    have hps : ps.isEmpty = false := by
      cases ps
      · cases hp
      · rfl
    have hmem : p ∈ phasesWithoutFocus ps := by
      rw [phasesWithoutFocus, List.mem_filter]
      exact ⟨hp, by simp [hfoc]⟩
    have hbad : (phasesWithoutFocus ps).isEmpty = false := by
      cases hb2 : phasesWithoutFocus ps
      · rw [hb2] at hmem
        cases hmem
      · rfl
    simp [validateGeneratedPhases, hps, hbad]

/-- Witness for C6: a list containing one good phase and one focus-less
phase fails naming `bad-phase`; validating `[goodPhase]` succeeds with the
focus label intact. -/
theorem phase_focus_validation_witness :
    validateGeneratedPhases (some [goodPhase, badPhase]) = Except.error
      (focusErrorMsg (String.intercalate ", "
        ((phasesWithoutFocus [goodPhase, badPhase]).map (fun p => p.phase_id)))) ∧
    ([goodPhase] = [goodPhase] ∧ ∀ p ∈ [goodPhase], p.workout_focus ≠ []) := by
  constructor
  · exact (phase_focus_validation [goodPhase, badPhase]).2 ⟨badPhase, by decide, rfl⟩
  · exact (phase_focus_validation [goodPhase]).1 [goodPhase] rfl

/-- Claim C10: an A-priority race dated today or in the past is not rejected
as a precondition violation — the step still builds the generation call (the
prompt embedding the weeks-to-race value), and the ceiling-divided
weeks-to-race is zero or negative. -/
theorem past_race_not_rejected (today : Int) (input : PhasePlanInput)
    (r : RaceEvent) (rest : List RaceEvent)
    (hA : aPriorityRaces input.race_schedule = r :: rest)
    (hpast : r.date ≤ today) :
    exceptIsOk (generatePhaseCall today input) = true ∧
    ∀ call, generatePhaseCall today input = Except.ok call →
      call.weeksToRace ≤ 0 := by
  have hcall : generatePhaseCall today input = Except.ok
      { raceDateMs := r.date
        raceName := r.name.getD "Goal Race"
        weeksToRace := ceilDivInt (r.date - today) weekMs
        prompt := phasePrompt (r.name.getD "Goal Race") r.date
          input.target_distance (ceilDivInt (r.date - today) weekMs) } := by
    rw [generatePhaseCall, hA]
  have hwtr : ceilDivInt (r.date - today) weekMs ≤ 0 := by
    have h1 : (0 : Int) ≤ -(r.date - today) := by omega
    have h2 : (0 : Int) ≤ weekMs := by decide
    have := Int.fdiv_nonneg h1 h2
    rw [ceilDivInt]
    omega
  refine ⟨by rw [hcall]; rfl, ?_⟩
  intro call hc
  rw [hcall] at hc
  simp only [Except.ok.injEq] at hc
  rw [← hc]
  exact hwtr

/-- Witness for C10: `pastRaceInput` one week after its race date yields a
successful generation call with weeks-to-race −1 ≤ 0. -/
theorem past_race_not_rejected_witness :
    exceptIsOk (generatePhaseCall 604800000 pastRaceInput) = true ∧
    pastRaceCall.weeksToRace ≤ 0 := by
  have h := past_race_not_rejected 604800000 pastRaceInput pastRace [] rfl (by decide)
  exact ⟨h.1, h.2 pastRaceCall rfl⟩

/-- Helper: the phase-saving loop fails whenever some phase in the list gets
a non-ok response. -/
theorem savePhaseLoop_error_of_bad (responses : TrainingPhase → ApiResponse)
    (phases : List TrainingPhase) (p : TrainingPhase) (hp : p ∈ phases)
    (hbad : (responses p).ok = false) :
    ∃ e, savePhaseLoop responses phases = Except.error e := by
  induction phases with
  | nil => cases hp
  | cons q rest ih =>
      cases hq : (responses q).ok with
      | true =>
          rcases List.mem_cons.mp hp with heq | hmem
          · rw [heq, hq] at hbad
            cases hbad
          · obtain ⟨e, he⟩ := ih hmem
            exact ⟨e, by simp [savePhaseLoop, hq, he]⟩
      | false =>
          refine ⟨"API error saving phase " ++ q.phase_id ++ ": " ++
            toString (responses q).status ++ " - " ++ (responses q).body, ?_⟩
          simp [savePhaseLoop, hq]

/-- Claim C8: persistence failure is asymmetric — a non-ok response while
saving any phase makes `saveToDatabase` fail, while a non-ok response while
storing a workout leaves the plan returned by the expander unchanged with
`stored = false` (the step itself completes). -/
theorem persistence_failure_asymmetry (tok : String)
    (responses : TrainingPhase → ApiResponse) (phases : List TrainingPhase)
    (p : TrainingPhase) (hp : p ∈ phases) (hbadp : (responses p).ok = false)
    (fr : WorkoutPlanLLM) (id wk ph : String) (dt : Int) (resp : ApiResponse)
    (hbadw : resp.ok = false) :
    exceptIsOk (saveToDatabase (some tok) responses phases) = false ∧
    storeWorkoutStep (some tok) resp (buildWorkoutPlanOutput fr id wk dt ph) =
      buildWorkoutPlanOutput fr id wk dt ph ∧
    (storeWorkoutStep (some tok) resp
      (buildWorkoutPlanOutput fr id wk dt ph)).stored = false := by
  have hne : phases.isEmpty = false := by
    cases phases
    · cases hp
    · rfl
  obtain ⟨e, he⟩ := savePhaseLoop_error_of_bad responses phases p hp hbadp
  refine ⟨?_, ?_, ?_⟩
  · simp [saveToDatabase, hne, he, exceptIsOk]
  · simp [storeWorkoutStep, hbadw]
  · simp [storeWorkoutStep, hbadw, buildWorkoutPlanOutput]

/-- Witness for C8 at a concrete phase list, failing store, and plan. -/
theorem persistence_failure_asymmetry_witness :
    exceptIsOk (saveToDatabase (some "token") failingResponses [goodPhase]) = false ∧
    storeWorkoutStep (some "token") badResponse
        (buildWorkoutPlanOutput samplePlanLLM "w1" "week-1" 0 "base-phase") =
      buildWorkoutPlanOutput samplePlanLLM "w1" "week-1" 0 "base-phase" ∧
    (storeWorkoutStep (some "token") badResponse
        (buildWorkoutPlanOutput samplePlanLLM "w1" "week-1" 0 "base-phase")).stored
      = false :=
  persistence_failure_asymmetry "token" failingResponses [goodPhase] goodPhase
    (List.mem_singleton.mpr rfl) rfl samplePlanLLM "w1" "week-1" "base-phase" 0
    badResponse rfl

/-- Claim C3: the generation loop of the Daily Workout Expander makes at most 3
attempts; the inter-attempt waits follow the exponential schedule 1s, 2s,
4s (as many entries as gaps actually occur); and it fails only when all 3
attempts yielded a null result or an error, surfacing the error of the last (third)
attempt in the final message. -/
theorem retry_loop_spec {α : Type} (outcomes : Nat → AttemptOutcome α)
    (id : String) :
    (processWorkoutGeneration outcomes id).calls ≤ 3 ∧
    (processWorkoutGeneration outcomes id).waits =
      [1000, 2000, 4000].take ((processWorkoutGeneration outcomes id).calls - 1) ∧
    (∀ e, (processWorkoutGeneration outcomes id).result = Except.error e →
      (outcomes 1).isOk = false ∧ (outcomes 2).isOk = false ∧
      (outcomes 3).isOk = false ∧
      (processWorkoutGeneration outcomes id).calls = 3 ∧
      e = finalFailMsg id (attemptErrorMsg 3 (outcomes 3))) ∧
    ((outcomes 1).isOk = false → (outcomes 2).isOk = false →
      (outcomes 3).isOk = false →
      (processWorkoutGeneration outcomes id).result =
        Except.error (finalFailMsg id (attemptErrorMsg 3 (outcomes 3)))) := by
  rcases h1 : outcomes 1 with p1 | s1 | m1 <;>
    rcases h2 : outcomes 2 with p2 | s2 | m2 <;>
      rcases h3 : outcomes 3 with p3 | s3 | m3 <;>
        simp [processWorkoutGeneration, retryFromAux, h1, h2, h3,
          AttemptOutcome.isOk, attemptErrorMsg, finalFailMsg]

/-- Witness for C3 with a script in which every attempt throws: 3 calls,
waits of 1s then 2s, and the final error carries the message of attempt 3. -/
theorem retry_loop_spec_witness :
    (processWorkoutGeneration failAllOutcomes "w1").calls ≤ 3 ∧
    (processWorkoutGeneration failAllOutcomes "w1").waits =
      [1000, 2000, 4000].take
        ((processWorkoutGeneration failAllOutcomes "w1").calls - 1) ∧
    (processWorkoutGeneration failAllOutcomes "w1").result =
      Except.error (finalFailMsg "w1"
        (attemptErrorMsg 3 (failAllOutcomes 3))) := by
  have h := retry_loop_spec failAllOutcomes "w1"
  exact ⟨h.1, h.2.1, h.2.2.2 rfl rfl rfl⟩

end Codetrekking
